import Mathlib

/-!
Verification development for the Springbok node lifecycle orchestrator
(`src/init.cpp`): the shutdown coordinator (`PrepareShutdown`), the cache
budget waterfall, parameter interaction, the chain-state load loop, and the
block import pipeline (`ThreadImport`). Each definition is a shallow
embedding of the corresponding region of `src/init.cpp`; external
collaborator calls (RPC server, LevelDB wrappers, validation engine) are
represented by explicit state fields or boolean inputs recording their
outcomes.
-/

namespace Springbok

/-!
Shutdown coordinator model, from `PrepareShutdown` (`src/init.cpp:209-371`).

The state record holds, for each subsystem the coordinator touches, whether
it is currently running / allocated, together with the persistent artifacts
(on-disk snapshot files, modelled as `Option Nat` holding the serialized
cache value; `none` means the file is absent or untouched by this model).
Cache contents are abstracted as `Nat` values. Fields that are pure
collaborator internals not owned by the orchestrator (e.g. the mempool
transactions-updated counter bumped at line 222) are outside the model.
-/

structure NodeState where
  httpRpcRunning : Bool
  restRunning : Bool
  rpcRunning : Bool
  httpServerRunning : Bool
  llmqRunning : Bool
  /-- Value returned by `RPCIsInWarmup` at the point it is read (line 232). -/
  rpcInWarmup : Bool
  /-- Whether `interfaces.chain_clients` is non-empty (cleared at line 367). -/
  chainClientsPresent : Bool
  clientsFlushed : Bool
  clientsStopped : Bool
  mapPortRunning : Bool
  peerLogicExists : Bool
  peerLogicRegistered : Bool
  connmanExists : Bool
  connmanRunning : Bool
  banmanExists : Bool
  txindexExists : Bool
  txindexRunning : Bool
  blockFilterIndexesExist : Bool
  blockFilterIndexesRunning : Bool
  torControlRunning : Bool
  schedulerRunning : Bool
  scriptCheckWorkersRunning : Bool
  pendingValidationCallbacks : Nat
  masternodeMetaCache : Nat
  netFulfilledCache : Nat
  sporkCache : Nat
  governanceCache : Nat
  mncacheFileOnDisk : Option Nat
  netfulfilledFileOnDisk : Option Nat
  sporksFileOnDisk : Option Nat
  governanceFileOnDisk : Option Nat
  /-- Configuration flag `fDisableGovernance` (read at line 267). -/
  disableGovernance : Bool
  mempoolLoaded : Bool
  /-- Configuration `-persistmempool` (read at line 281). -/
  persistMempool : Bool
  mempoolContents : Nat
  mempoolFileOnDisk : Option Nat
  feeEstimatesInitialized : Bool
  feeEstimatorState : Nat
  feeEstimatesFileOnDisk : Option Nat
  /-- Whether `g_chainstate` is non-null (it is not reset by `PrepareShutdown`). -/
  chainstateExists : Bool
  /-- Result of `g_chainstate->CanFlushToDisk()`; `ResetCoinsViews` (line 322) makes it false. -/
  chainstateCanFlush : Bool
  coinsInMemory : Nat
  coinsOnDisk : Nat
  blockTreeDbExists : Bool
  llmqSystemExists : Bool
  quorumSnapshotManagerExists : Bool
  deterministicMNManagerExists : Bool
  evoDbExists : Bool
  zmqIfaceExists : Bool
  pdsIfaceExists : Bool
  masternodeMode : Bool
  activeMnRegistered : Bool
  blsKeysAllocated : Bool
  pidFileExists : Bool
  otherIfacesRegistered : Bool
  bgSignalSchedulerRegistered : Bool
  mempoolSignalsConnected : Bool
deriving DecidableEq

/--
Embedding of `PrepareShutdown` (`src/init.cpp:209-371`) as a state
transformer. Sequential re-invocation is modelled by applying the function
again: the `TRY_LOCK(cs_Shutdown)` guard (lines 212-215) only rejects
concurrent callers, so a second sequential call runs the whole body again.
Every stop/free step from the source is represented either by setting the
corresponding liveness flag to `false` or, for guarded artifact writes
(cache dumps at lines 259-271, mempool dump at 281-283, fee estimates at
285-295, chain-state flush at 301-329), by the same conditional the source
uses.
-/
def PrepareShutdown (s : NodeState) : NodeState :=
  { s with
    httpRpcRunning := false
    restRunning := false
    rpcRunning := false
    httpServerRunning := false
    llmqRunning := false
    clientsFlushed := if s.chainClientsPresent then true else s.clientsFlushed
    mapPortRunning := false
    peerLogicRegistered := false
    connmanRunning := false
    txindexRunning := false
    blockFilterIndexesRunning := false
    torControlRunning := false
    schedulerRunning := false
    scriptCheckWorkersRunning := false
    pendingValidationCallbacks := 0
    mncacheFileOnDisk :=
      if s.rpcInWarmup then s.mncacheFileOnDisk else some s.masternodeMetaCache
    netfulfilledFileOnDisk :=
      if s.rpcInWarmup then s.netfulfilledFileOnDisk else some s.netFulfilledCache
    sporksFileOnDisk :=
      if s.rpcInWarmup then s.sporksFileOnDisk else some s.sporkCache
    governanceFileOnDisk :=
      if s.rpcInWarmup then s.governanceFileOnDisk
      else if s.disableGovernance then s.governanceFileOnDisk
      else some s.governanceCache
    peerLogicExists := false
    connmanExists := false
    banmanExists := false
    txindexExists := false
    blockFilterIndexesExist := false
    mempoolFileOnDisk :=
      if s.mempoolLoaded then
        if s.persistMempool then some s.mempoolContents else s.mempoolFileOnDisk
      else s.mempoolFileOnDisk
    feeEstimatesFileOnDisk :=
      if s.feeEstimatesInitialized then some s.feeEstimatorState
      else s.feeEstimatesFileOnDisk
    feeEstimatesInitialized := false
    coinsOnDisk :=
      if s.chainstateExists then
        if s.chainstateCanFlush then s.coinsInMemory else s.coinsOnDisk
      else s.coinsOnDisk
    chainstateCanFlush := if s.chainstateExists then false else s.chainstateCanFlush
    blockTreeDbExists := false
    llmqSystemExists := false
    quorumSnapshotManagerExists := false
    deterministicMNManagerExists := false
    evoDbExists := false
    clientsStopped := if s.chainClientsPresent then true else s.clientsStopped
    zmqIfaceExists := false
    pdsIfaceExists := false
    activeMnRegistered := false
    blsKeysAllocated := false
    pidFileExists := false
    chainClientsPresent := false
    otherIfacesRegistered := false
    bgSignalSchedulerRegistered := false
    mempoolSignalsConnected := false }

/-- Release / close actions `PrepareShutdown` can perform at most once per
resource. An event is emitted exactly when the corresponding guard in the
source passes (a null smart pointer or absent file makes the action a no-op,
which emits nothing). -/
inductive ReleaseEvent where
  | freedPeerLogic
  | freedConnman
  | freedBanman
  | freedTxindex
  | freedBlockFilterIndexes
  | freedBlockTreeDb
  | freedLlmqSystem
  | freedQuorumSnapshotManager
  | freedDeterministicMNManager
  | freedEvoDb
  | freedZmqIface
  | freedPdsIface
  | freedBlsKeys
  | removedPidFile
deriving DecidableEq

/-- Release events one invocation of `PrepareShutdown` performs from state
`s`: the destruction steps at `src/init.cpp:275-279`, `324-328`, `334-346`,
`351-356` and the PID-file removal at `358-366`, each guarded by whether the
resource is currently allocated. -/
def PrepareShutdownReleases (s : NodeState) : List ReleaseEvent :=
  (if s.peerLogicExists then [ReleaseEvent.freedPeerLogic] else []) ++
  (if s.connmanExists then [ReleaseEvent.freedConnman] else []) ++
  (if s.banmanExists then [ReleaseEvent.freedBanman] else []) ++
  (if s.txindexExists then [ReleaseEvent.freedTxindex] else []) ++
  (if s.blockFilterIndexesExist then [ReleaseEvent.freedBlockFilterIndexes] else []) ++
  (if s.blockTreeDbExists then [ReleaseEvent.freedBlockTreeDb] else []) ++
  (if s.llmqSystemExists then [ReleaseEvent.freedLlmqSystem] else []) ++
  (if s.quorumSnapshotManagerExists then [ReleaseEvent.freedQuorumSnapshotManager] else []) ++
  (if s.deterministicMNManagerExists then [ReleaseEvent.freedDeterministicMNManager] else []) ++
  (if s.evoDbExists then [ReleaseEvent.freedEvoDb] else []) ++
  (if s.zmqIfaceExists then [ReleaseEvent.freedZmqIface] else []) ++
  (if s.pdsIfaceExists then [ReleaseEvent.freedPdsIface] else []) ++
  (if s.blsKeysAllocated then [ReleaseEvent.freedBlsKeys] else []) ++
  (if s.pidFileExists then [ReleaseEvent.removedPidFile] else [])

/-- C1: invoking the shutdown teardown (`PrepareShutdown`) twice in sequence,
from any state in which it can be invoked once (including a
partially-initialized state with any subset of components initialized),
leaves the process in the same final state as invoking it once, and the
second invocation performs no release/close action at all (so no resource is
double-freed or double-closed). -/
theorem prepareShutdown_idempotent (s : NodeState) :
    PrepareShutdown (PrepareShutdown s) = PrepareShutdown s ∧
    PrepareShutdownReleases (PrepareShutdown s) = [] := by
  constructor
  · rcases s with ⟨f1, f2, f3, f4, f5, warm, clients, f8, f9, f10, f11, f12,
      f13, f14, f15, f16, f17, f18, f19, f20, f21, f22, f23, f24, f25, f26,
      f27, f28, f29, f30, f31, disGov, memLoaded, persistMem, f35, f36,
      feeInit, f38, f39, csExists, csCanFlush, f42, f43, f44, f45, f46, f47,
      f48, f49, f50, f51, f52, f53, f54, f55, f56, f57⟩
    cases warm <;> cases clients <;> cases disGov <;> cases memLoaded <;>
      cases persistMem <;> cases feeInit <;> cases csExists <;>
      cases csCanFlush <;> rfl
  · simp [PrepareShutdownReleases, PrepareShutdown]

/-- C9: during shutdown teardown, the in-memory caches (masternode
metadata, fulfilled-request cache, spork cache, and, unless governance is
disabled, the governance cache) are persisted to their on-disk snapshot
files if and only if the RPC layer was no longer in warmup when the
persistence step runs; if RPC was still in warmup, none of these snapshot
files is written. -/
theorem prepareShutdown_cache_persistence (s : NodeState) :
    (s.rpcInWarmup = false →
      (PrepareShutdown s).mncacheFileOnDisk = some s.masternodeMetaCache ∧
      (PrepareShutdown s).netfulfilledFileOnDisk = some s.netFulfilledCache ∧
      (PrepareShutdown s).sporksFileOnDisk = some s.sporkCache ∧
      (s.disableGovernance = false →
        (PrepareShutdown s).governanceFileOnDisk = some s.governanceCache) ∧
      (s.disableGovernance = true →
        (PrepareShutdown s).governanceFileOnDisk = s.governanceFileOnDisk)) ∧
    (s.rpcInWarmup = true →
      (PrepareShutdown s).mncacheFileOnDisk = s.mncacheFileOnDisk ∧
      (PrepareShutdown s).netfulfilledFileOnDisk = s.netfulfilledFileOnDisk ∧
      (PrepareShutdown s).sporksFileOnDisk = s.sporksFileOnDisk ∧
      (PrepareShutdown s).governanceFileOnDisk = s.governanceFileOnDisk) := by
  constructor
  · intro hw
    refine ⟨by simp [PrepareShutdown, hw], by simp [PrepareShutdown, hw],
      by simp [PrepareShutdown, hw],
      fun hg => by simp [PrepareShutdown, hw, hg],
      fun hg => by simp [PrepareShutdown, hw, hg]⟩
  · intro hw
    simp [PrepareShutdown, hw]

/-- Concrete fully-initialized node state with RPC out of warmup, used to
evaluate the shutdown model on explicit inputs. -/
def sampleReadyState : NodeState where
  httpRpcRunning := true
  restRunning := true
  rpcRunning := true
  httpServerRunning := true
  llmqRunning := true
  rpcInWarmup := false
  chainClientsPresent := true
  clientsFlushed := false
  clientsStopped := false
  mapPortRunning := true
  peerLogicExists := true
  peerLogicRegistered := true
  connmanExists := true
  connmanRunning := true
  banmanExists := true
  txindexExists := true
  txindexRunning := true
  blockFilterIndexesExist := true
  blockFilterIndexesRunning := true
  torControlRunning := true
  schedulerRunning := true
  scriptCheckWorkersRunning := true
  pendingValidationCallbacks := 2
  masternodeMetaCache := 3
  netFulfilledCache := 4
  sporkCache := 5
  governanceCache := 6
  mncacheFileOnDisk := none
  netfulfilledFileOnDisk := none
  sporksFileOnDisk := none
  governanceFileOnDisk := none
  disableGovernance := false
  mempoolLoaded := true
  persistMempool := true
  mempoolContents := 7
  mempoolFileOnDisk := none
  feeEstimatesInitialized := true
  feeEstimatorState := 8
  feeEstimatesFileOnDisk := none
  chainstateExists := true
  chainstateCanFlush := true
  coinsInMemory := 9
  coinsOnDisk := 1
  blockTreeDbExists := true
  llmqSystemExists := true
  quorumSnapshotManagerExists := true
  deterministicMNManagerExists := true
  evoDbExists := true
  zmqIfaceExists := true
  pdsIfaceExists := true
  masternodeMode := true
  activeMnRegistered := true
  blsKeysAllocated := true
  pidFileExists := true
  otherIfacesRegistered := true
  bgSignalSchedulerRegistered := true
  mempoolSignalsConnected := true

/-- Variant of `sampleReadyState` in which RPC is still in warmup and the
on-disk snapshot files hold earlier values. -/
def sampleWarmupState : NodeState :=
  { sampleReadyState with
    rpcInWarmup := true
    mncacheFileOnDisk := some 100
    netfulfilledFileOnDisk := some 101
    sporksFileOnDisk := some 102
    governanceFileOnDisk := some 103 }

/-- Witness for C9: evaluating the shutdown model on `sampleReadyState`
(not in warmup: caches written) and `sampleWarmupState` (in warmup: files
untouched). -/
theorem prepareShutdown_cache_persistence_witness :
    (PrepareShutdown sampleReadyState).mncacheFileOnDisk = some 3 ∧
    (PrepareShutdown sampleReadyState).governanceFileOnDisk = some 6 ∧
    (PrepareShutdown sampleWarmupState).mncacheFileOnDisk = some 100 ∧
    (PrepareShutdown sampleWarmupState).governanceFileOnDisk = some 103 := by
  have h1 := prepareShutdown_cache_persistence sampleReadyState
  have h2 := prepareShutdown_cache_persistence sampleWarmupState
  refine ⟨(h1.1 rfl).1, (h1.1 rfl).2.2.2.1 rfl, (h2.2 rfl).1, (h2.2 rfl).2.2.2⟩

/-!
Cache budget waterfall, from `AppInitMain` (`src/init.cpp:1916-1933`).

The computation is embedded over `Int` (C++ `int64_t`; no intermediate
value here approaches 2^63). `x << 20` is written `x * 1048576`. C++ `/`
truncates toward zero while Lean's `Int` `/` is Euclidean; the two agree on
all divisions below because every dividend is nonnegative whenever the
configured caps are nonnegative, which the theorems assume. The cap
constants (`nMinDbCache`, `nMaxDbCache`, `nMaxBlockDBCache`,
`nMaxTxIndexCache`, `max_filter_index_cache`, `nMaxCoinsDBCache`) are
declared in headers outside this excerpt, so they are carried as
parameters. -/

structure CacheCaps where
  nMinDbCache : Int
  nMaxDbCache : Int
  nMaxBlockDBCache : Int
  nMaxTxIndexCache : Int
  maxFilterIndexCache : Int
  nMaxCoinsDBCache : Int

/-- Lines 1916-1918: `nTotalCache` after clamping to the documented
minimum and maximum. -/
def nTotalCacheClamped (c : CacheCaps) (dbcacheArg : Int) : Int :=
  min (max (dbcacheArg * 1048576) (c.nMinDbCache * 1048576)) (c.nMaxDbCache * 1048576)

/-- Line 1919: `nBlockTreeDBCache = std::min(nTotalCache / 8, nMaxBlockDBCache << 20)`. -/
def nBlockTreeDBCacheOf (c : CacheCaps) (dbcacheArg : Int) : Int :=
  min (nTotalCacheClamped c dbcacheArg / 8) (c.nMaxBlockDBCache * 1048576)

/-- Line 1920: `nTotalCache -= nBlockTreeDBCache`. -/
def totalAfterBlockTree (c : CacheCaps) (dbcacheArg : Int) : Int :=
  nTotalCacheClamped c dbcacheArg - nBlockTreeDBCacheOf c dbcacheArg

/-- Line 1921: the transaction-index cache, whose cap is zero when
`-txindex` is off. -/
def nTxIndexCacheOf (c : CacheCaps) (dbcacheArg : Int) (txindexEnabled : Bool) : Int :=
  min (totalAfterBlockTree c dbcacheArg / 8)
    (if txindexEnabled then c.nMaxTxIndexCache * 1048576 else 0)

/-- Line 1922: `nTotalCache -= nTxIndexCache`. -/
def totalAfterTxIndex (c : CacheCaps) (dbcacheArg : Int) (txindexEnabled : Bool) : Int :=
  totalAfterBlockTree c dbcacheArg - nTxIndexCacheOf c dbcacheArg txindexEnabled

/-- Lines 1923-1928: the per-filter-index cache; a pool of
`min(nTotalCache / 8, max_filter_index_cache << 20)` split evenly over the
`nFilterIndexes` enabled filter indexes (zero when none are enabled). -/
def filterIndexCacheOf (c : CacheCaps) (dbcacheArg : Int) (txindexEnabled : Bool)
    (nFilterIndexes : Nat) : Int :=
  if nFilterIndexes = 0 then 0
  else
    min (totalAfterTxIndex c dbcacheArg txindexEnabled / 8) (c.maxFilterIndexCache * 1048576) /
      (nFilterIndexes : Int)

/-- Line 1928: `nTotalCache -= filter_index_cache * n_indexes` (a no-op when
no filter index is enabled). -/
def totalAfterFilters (c : CacheCaps) (dbcacheArg : Int) (txindexEnabled : Bool)
    (nFilterIndexes : Nat) : Int :=
  totalAfterTxIndex c dbcacheArg txindexEnabled -
    filterIndexCacheOf c dbcacheArg txindexEnabled nFilterIndexes * (nFilterIndexes : Int)

/-- Lines 1930-1931: the on-disk coin cache gets 25-50% of the remainder
(`min(nTotalCache / 2, nTotalCache / 4 + (1 << 23))`), capped at
`nMaxCoinsDBCache << 20`. -/
def nCoinDBCacheOf (c : CacheCaps) (dbcacheArg : Int) (txindexEnabled : Bool)
    (nFilterIndexes : Nat) : Int :=
  min
    (min (totalAfterFilters c dbcacheArg txindexEnabled nFilterIndexes / 2)
      (totalAfterFilters c dbcacheArg txindexEnabled nFilterIndexes / 4 + 8388608))
    (c.nMaxCoinsDBCache * 1048576)

/-- Lines 1932-1933: the in-memory coin cache receives whatever remains. -/
def nCoinCacheUsageOf (c : CacheCaps) (dbcacheArg : Int) (txindexEnabled : Bool)
    (nFilterIndexes : Nat) : Int :=
  totalAfterFilters c dbcacheArg txindexEnabled nFilterIndexes -
    nCoinDBCacheOf c dbcacheArg txindexEnabled nFilterIndexes

/-- Helper: an allocation `min (T / d) cap` is nonnegative, at most its
cap, and at most the remaining budget `T`. -/
theorem minDivCap_bounds {T cap d : Int} (hT : 0 ≤ T) (hcap : 0 ≤ cap) (hd : 0 ≤ d) :
    0 ≤ min (T / d) cap ∧ min (T / d) cap ≤ cap ∧ min (T / d) cap ≤ T :=
  ⟨le_min (Int.ediv_nonneg hT hd) hcap, min_le_right _ _,
    le_trans (min_le_left _ _) (Int.ediv_le_self _ hT)⟩

/-- C3: for every total-cache configuration value within the documented
minimum and maximum (and nonnegative documented caps), the cache-budget
waterfall partitions the configured total: the partitions are all
nonnegative, their sum equals the configured total in bytes (so it never
exceeds it), and the block-index, transaction-index, per-filter-index and
on-disk coin-cache partitions each respect their individual cap. -/
theorem cacheBudget_waterfall (c : CacheCaps) (dbcacheArg : Int)
    (txindexEnabled : Bool) (nFilterIndexes : Nat)
    (hmin0 : 0 ≤ c.nMinDbCache)
    (hblk : 0 ≤ c.nMaxBlockDBCache) (htxc : 0 ≤ c.nMaxTxIndexCache)
    (hflt : 0 ≤ c.maxFilterIndexCache) (hcoin : 0 ≤ c.nMaxCoinsDBCache)
    (hlo : c.nMinDbCache ≤ dbcacheArg) (hhi : dbcacheArg ≤ c.nMaxDbCache) :
    nBlockTreeDBCacheOf c dbcacheArg + nTxIndexCacheOf c dbcacheArg txindexEnabled +
        filterIndexCacheOf c dbcacheArg txindexEnabled nFilterIndexes * (nFilterIndexes : Int) +
        nCoinDBCacheOf c dbcacheArg txindexEnabled nFilterIndexes +
        nCoinCacheUsageOf c dbcacheArg txindexEnabled nFilterIndexes =
      dbcacheArg * 1048576 ∧
    0 ≤ nBlockTreeDBCacheOf c dbcacheArg ∧
    nBlockTreeDBCacheOf c dbcacheArg ≤ c.nMaxBlockDBCache * 1048576 ∧
    0 ≤ nTxIndexCacheOf c dbcacheArg txindexEnabled ∧
    nTxIndexCacheOf c dbcacheArg txindexEnabled ≤ c.nMaxTxIndexCache * 1048576 ∧
    0 ≤ filterIndexCacheOf c dbcacheArg txindexEnabled nFilterIndexes ∧
    filterIndexCacheOf c dbcacheArg txindexEnabled nFilterIndexes ≤
      c.maxFilterIndexCache * 1048576 ∧
    0 ≤ nCoinDBCacheOf c dbcacheArg txindexEnabled nFilterIndexes ∧
    nCoinDBCacheOf c dbcacheArg txindexEnabled nFilterIndexes ≤
      c.nMaxCoinsDBCache * 1048576 ∧
    0 ≤ nCoinCacheUsageOf c dbcacheArg txindexEnabled nFilterIndexes := by
  have hm : (0 : Int) ≤ 1048576 := by norm_num
  have hd : 0 ≤ dbcacheArg := le_trans hmin0 hlo
  have hT2eq : nTotalCacheClamped c dbcacheArg = dbcacheArg * 1048576 := by
    unfold nTotalCacheClamped
    rw [max_eq_left (mul_le_mul_of_nonneg_right hlo hm),
      min_eq_left (mul_le_mul_of_nonneg_right hhi hm)]
  have hT2 : 0 ≤ nTotalCacheClamped c dbcacheArg := by
    rw [hT2eq]; exact mul_nonneg hd hm
  have hBT := minDivCap_bounds (d := 8) hT2 (mul_nonneg hblk hm) (by norm_num)
  have hBT0 : 0 ≤ nBlockTreeDBCacheOf c dbcacheArg := hBT.1
  have hBTcap : nBlockTreeDBCacheOf c dbcacheArg ≤ c.nMaxBlockDBCache * 1048576 := hBT.2.1
  have hT3 : 0 ≤ totalAfterBlockTree c dbcacheArg :=
    sub_nonneg.mpr hBT.2.2
  have htxcap0 : (0 : Int) ≤ if txindexEnabled then c.nMaxTxIndexCache * 1048576 else 0 := by
    cases txindexEnabled <;> simp [mul_nonneg htxc hm]
  have hTX := minDivCap_bounds (d := 8) hT3 htxcap0 (by norm_num)
  have hTX0 : 0 ≤ nTxIndexCacheOf c dbcacheArg txindexEnabled := hTX.1
  have hTXcap : nTxIndexCacheOf c dbcacheArg txindexEnabled ≤ c.nMaxTxIndexCache * 1048576 := by
    refine le_trans hTX.2.1 ?_
    cases txindexEnabled <;> simp [mul_nonneg htxc hm]
  have hT4 : 0 ≤ totalAfterTxIndex c dbcacheArg txindexEnabled :=
    sub_nonneg.mpr hTX.2.2
  have hFpool := minDivCap_bounds (d := 8) hT4 (mul_nonneg hflt hm) (by norm_num)
  have hFC0 : 0 ≤ filterIndexCacheOf c dbcacheArg txindexEnabled nFilterIndexes := by
    unfold filterIndexCacheOf
    split
    · exact le_refl 0
    · exact Int.ediv_nonneg hFpool.1 (Int.ofNat_nonneg _)
  have hFCcap : filterIndexCacheOf c dbcacheArg txindexEnabled nFilterIndexes ≤
      c.maxFilterIndexCache * 1048576 := by
    unfold filterIndexCacheOf
    split
    · exact mul_nonneg hflt hm
    · exact le_trans (Int.ediv_le_self _ hFpool.1) hFpool.2.1
  have hFmul : filterIndexCacheOf c dbcacheArg txindexEnabled nFilterIndexes *
      (nFilterIndexes : Int) ≤ totalAfterTxIndex c dbcacheArg txindexEnabled := by
    unfold filterIndexCacheOf
    split
    · simpa using hT4
    · rename_i hn
      refine le_trans (Int.ediv_mul_le _ ?_) hFpool.2.2
      exact_mod_cast hn
  have hT5 : 0 ≤ totalAfterFilters c dbcacheArg txindexEnabled nFilterIndexes :=
    sub_nonneg.mpr hFmul
  have hCD0 : 0 ≤ nCoinDBCacheOf c dbcacheArg txindexEnabled nFilterIndexes := by
    unfold nCoinDBCacheOf
    refine le_min (le_min (Int.ediv_nonneg hT5 (by norm_num)) ?_) (mul_nonneg hcoin hm)
    exact add_nonneg (Int.ediv_nonneg hT5 (by norm_num)) (by norm_num)
  have hCDcap : nCoinDBCacheOf c dbcacheArg txindexEnabled nFilterIndexes ≤
      c.nMaxCoinsDBCache * 1048576 := min_le_right _ _
  have hCDle : nCoinDBCacheOf c dbcacheArg txindexEnabled nFilterIndexes ≤
      totalAfterFilters c dbcacheArg txindexEnabled nFilterIndexes := by
    unfold nCoinDBCacheOf
    exact le_trans (min_le_left _ _) (le_trans (min_le_left _ _) (Int.ediv_le_self _ hT5))
  have hCC0 : 0 ≤ nCoinCacheUsageOf c dbcacheArg txindexEnabled nFilterIndexes :=
    sub_nonneg.mpr hCDle
  refine ⟨?_, hBT0, hBTcap, hTX0, hTXcap, hFC0, hFCcap, hCD0, hCDcap, hCC0⟩
  have hsum : nBlockTreeDBCacheOf c dbcacheArg + nTxIndexCacheOf c dbcacheArg txindexEnabled +
      filterIndexCacheOf c dbcacheArg txindexEnabled nFilterIndexes * (nFilterIndexes : Int) +
      nCoinDBCacheOf c dbcacheArg txindexEnabled nFilterIndexes +
      nCoinCacheUsageOf c dbcacheArg txindexEnabled nFilterIndexes =
      nTotalCacheClamped c dbcacheArg := by
    unfold nCoinCacheUsageOf totalAfterFilters totalAfterTxIndex totalAfterBlockTree
    ring
  rw [hsum, hT2eq]

/-- Witness for C3: the waterfall evaluated with the documented Dash-family
constants (`nMinDbCache = 4`, `nMaxDbCache = 16384`, `nMaxBlockDBCache = 2`,
`nMaxTxIndexCache = 1024`, `max_filter_index_cache = 1024`,
`nMaxCoinsDBCache = 8`) at `-dbcache=450`, with `-txindex` on and one
filter index enabled. -/
theorem cacheBudget_waterfall_witness :
    nBlockTreeDBCacheOf ⟨4, 16384, 2, 1024, 1024, 8⟩ 450 +
        nTxIndexCacheOf ⟨4, 16384, 2, 1024, 1024, 8⟩ 450 true +
        filterIndexCacheOf ⟨4, 16384, 2, 1024, 1024, 8⟩ 450 true 1 * (1 : Int) +
        nCoinDBCacheOf ⟨4, 16384, 2, 1024, 1024, 8⟩ 450 true 1 +
        nCoinCacheUsageOf ⟨4, 16384, 2, 1024, 1024, 8⟩ 450 true 1 =
      450 * 1048576 ∧
    nCoinDBCacheOf ⟨4, 16384, 2, 1024, 1024, 8⟩ 450 true 1 ≤ 8 * 1048576 := by
  have h := cacheBudget_waterfall ⟨4, 16384, 2, 1024, 1024, 8⟩ 450 true 1
    (by norm_num) (by norm_num) (by norm_num) (by norm_num) (by norm_num)
    (by norm_num) (by norm_num)
  exact ⟨h.1, h.2.2.2.2.2.2.2.2.1⟩

/-!
Parameter interaction, from `InitParameterInteraction`
(`src/init.cpp:1070-1161`).

An argument map entry is `Option Bool` (or `Option Int`): `none` means the
user did not set the option. `SoftSetBoolArg` writes a value only when the
option is still unset; `IsArgSet` is modelled by dedicated `...Set` flags
for options whose value is irrelevant here (bind addresses, connect, proxy,
externalip, masternodeblsprivkey). Option defaults (`DEFAULT_LISTEN` and
friends) are declared outside this excerpt and carried as parameters. -/

structure ArgDefaults where
  defListen : Bool
  defBlocksonly : Bool
  defWhitelistforcerelay : Bool
  defAddressindex : Bool
  defSpentindex : Bool
  defTimestampindex : Bool
  defChecklevel : Int
deriving DecidableEq

structure ArgsState where
  bindSet : Bool
  whitebindSet : Bool
  connectSet : Bool
  proxySet : Bool
  externalipSet : Bool
  masternodeblsprivkeySet : Bool
  listen : Option Bool
  dnsseed : Option Bool
  upnp : Option Bool
  natpmp : Option Bool
  discover : Option Bool
  listenonion : Option Bool
  blocksonly : Option Bool
  whitelistrelay : Option Bool
  whitelistforcerelay : Option Bool
  /-- Value of `gArgs.GetArg("-prune", 0)` (line 1136). -/
  pruneArg : Int
  disablegovernance : Option Bool
  txindex : Option Bool
  addressindex : Option Bool
  spentindex : Option Bool
  timestampindex : Option Bool
  checklevel : Option Int
  disablewallet : Option Bool
deriving DecidableEq

/-- Embedding of `ArgsManager::SoftSetBoolArg`: set the value only if the
option is not already set. -/
def SoftSetBoolArg (o : Option Bool) (v : Bool) : Option Bool :=
  match o with
  | none => some v
  | some b => some b

/-- Embedding of `ArgsManager::GetBoolArg`: the set value, else the default. -/
def GetBoolArg (o : Option Bool) (dflt : Bool) : Bool := o.getD dflt

/-- Embedding of `ArgsManager::GetArg` for integer options. -/
def GetIntArg (o : Option Int) (dflt : Int) : Int := o.getD dflt

theorem softSet_none (v : Bool) : SoftSetBoolArg none v = some v := rfl

theorem softSet_some (b v : Bool) : SoftSetBoolArg (some b) v = some b := rfl

/--
Embedding of `InitParameterInteraction` (`src/init.cpp:1070-1161`). Each
`let` mirrors one interaction block, in source order: `-bind`/`-whitebind`
imply `-listen=1` (1074-1081); `-connect` implies `-dnsseed=0` and
`-listen=0` (1083-1089); `-proxy` implies `-listen=0`, `-upnp=0`,
`-natpmp=0`, `-discover=0` (1091-1104); effective `-listen=0` implies
`-upnp=0`, `-natpmp=0`, `-discover=0`, `-listenonion=0` (1106-1116);
`-externalip` implies `-discover=0` (1118-1122); `-blocksonly` implies
`-whitelistrelay=0` (1125-1128); `-whitelistforcerelay` implies
`-whitelistrelay=1` (1131-1134); `-prune>0` implies
`-disablegovernance=true` and `-txindex=false` (1136-1144); additional
indexes force `-checklevel=4` via `ForceSetArg` (1146-1156);
`-masternodeblsprivkey` implies `-disablewallet=1` (1158-1160).
-/
def InitParameterInteraction (d : ArgDefaults) (a : ArgsState) : ArgsState :=
  let a1 := { a with
    listen := if a.bindSet then SoftSetBoolArg a.listen true else a.listen }
  let a2 := { a1 with
    listen := if a1.whitebindSet then SoftSetBoolArg a1.listen true else a1.listen }
  let a3 := { a2 with
    dnsseed := if a2.connectSet then SoftSetBoolArg a2.dnsseed false else a2.dnsseed
    listen := if a2.connectSet then SoftSetBoolArg a2.listen false else a2.listen }
  let a4 := { a3 with
    listen := if a3.proxySet then SoftSetBoolArg a3.listen false else a3.listen
    upnp := if a3.proxySet then SoftSetBoolArg a3.upnp false else a3.upnp
    natpmp := if a3.proxySet then SoftSetBoolArg a3.natpmp false else a3.natpmp
    discover := if a3.proxySet then SoftSetBoolArg a3.discover false else a3.discover }
  let a5 := { a4 with
    upnp := if !GetBoolArg a4.listen d.defListen then SoftSetBoolArg a4.upnp false else a4.upnp
    natpmp := if !GetBoolArg a4.listen d.defListen then SoftSetBoolArg a4.natpmp false else a4.natpmp
    discover := if !GetBoolArg a4.listen d.defListen then SoftSetBoolArg a4.discover false else a4.discover
    listenonion := if !GetBoolArg a4.listen d.defListen then SoftSetBoolArg a4.listenonion false else a4.listenonion }
  let a6 := { a5 with
    discover := if a5.externalipSet then SoftSetBoolArg a5.discover false else a5.discover }
  let a7 := { a6 with
    whitelistrelay := if GetBoolArg a6.blocksonly d.defBlocksonly then
      SoftSetBoolArg a6.whitelistrelay false else a6.whitelistrelay }
  let a8 := { a7 with
    whitelistrelay := if GetBoolArg a7.whitelistforcerelay d.defWhitelistforcerelay then
      SoftSetBoolArg a7.whitelistrelay true else a7.whitelistrelay }
  let a9 := { a8 with
    disablegovernance := if 0 < a8.pruneArg then
      SoftSetBoolArg a8.disablegovernance true else a8.disablegovernance
    txindex := if 0 < a8.pruneArg then SoftSetBoolArg a8.txindex false else a8.txindex }
  let fAdditionalIndexes :=
    GetBoolArg a9.addressindex d.defAddressindex ||
    GetBoolArg a9.spentindex d.defSpentindex ||
    GetBoolArg a9.timestampindex d.defTimestampindex
  let a10 := { a9 with
    checklevel := if fAdditionalIndexes ∧ GetIntArg a9.checklevel d.defChecklevel < 4 then
      some 4 else a9.checklevel }
  { a10 with
    disablewallet := if a10.masternodeblsprivkeySet then
      SoftSetBoolArg a10.disablewallet true else a10.disablewallet }

/-- C5: parameter interaction applies the deterministic precedence rules —
an explicit bind address implies `listen=true`; connecting to specific
peers implies `dnsseed=false` and `listen=false`; a proxy implies
`listen=false`, `upnp=false` and `discover=false`; pruning implies
`txindex=false` and governance validation disabled — and these rules only
override values the user did not set explicitly (every explicitly set value
among the options these rules touch is preserved). -/
theorem initParameterInteraction_precedence (d : ArgDefaults) (a : ArgsState) :
    ((a.bindSet = true ∨ a.whitebindSet = true) → a.listen = none →
      (InitParameterInteraction d a).listen = some true) ∧
    (a.connectSet = true → a.dnsseed = none →
      (InitParameterInteraction d a).dnsseed = some false) ∧
    (a.connectSet = true → a.listen = none → a.bindSet = false → a.whitebindSet = false →
      (InitParameterInteraction d a).listen = some false) ∧
    (a.proxySet = true → a.listen = none → a.bindSet = false → a.whitebindSet = false →
      (InitParameterInteraction d a).listen = some false) ∧
    (a.proxySet = true → a.upnp = none →
      (InitParameterInteraction d a).upnp = some false) ∧
    (a.proxySet = true → a.discover = none →
      (InitParameterInteraction d a).discover = some false) ∧
    (0 < a.pruneArg → a.txindex = none →
      (InitParameterInteraction d a).txindex = some false) ∧
    (0 < a.pruneArg → a.disablegovernance = none →
      (InitParameterInteraction d a).disablegovernance = some true) ∧
    (∀ b, a.listen = some b → (InitParameterInteraction d a).listen = some b) ∧
    (∀ b, a.dnsseed = some b → (InitParameterInteraction d a).dnsseed = some b) ∧
    (∀ b, a.upnp = some b → (InitParameterInteraction d a).upnp = some b) ∧
    (∀ b, a.discover = some b → (InitParameterInteraction d a).discover = some b) ∧
    (∀ b, a.txindex = some b → (InitParameterInteraction d a).txindex = some b) ∧
    (∀ b, a.disablegovernance = some b →
      (InitParameterInteraction d a).disablegovernance = some b) := by
  refine ⟨?_, ?_, ?_, ?_, ?_, ?_, ?_, ?_, ?_, ?_, ?_, ?_, ?_, ?_⟩ <;>
    intro h1 h2 <;>
    first
    | (simp only [InitParameterInteraction] <;>
        simp [softSet_none, softSet_some, h1, h2] <;>
        split_ifs <;> simp_all [SoftSetBoolArg])
    | skip
  all_goals
    simp only [InitParameterInteraction] <;>
    simp [softSet_none, softSet_some, h2] <;>
    split_ifs <;> simp_all [SoftSetBoolArg]

/-- Sample argument state: `-proxy` and `-connect` given, `-prune=1000`,
`-dnsseed=1` set explicitly, everything else unset. -/
def sampleArgs : ArgsState where
  bindSet := false
  whitebindSet := false
  connectSet := true
  proxySet := true
  externalipSet := false
  masternodeblsprivkeySet := false
  listen := none
  dnsseed := some true
  upnp := none
  natpmp := none
  discover := none
  listenonion := none
  blocksonly := none
  whitelistrelay := none
  whitelistforcerelay := none
  pruneArg := 1000
  disablegovernance := none
  txindex := none
  addressindex := none
  spentindex := none
  timestampindex := none
  checklevel := none
  disablewallet := none

/-- Sample defaults mirroring the released configuration (listen on,
blocksonly off, whitelistforcerelay off, extra indexes off, checklevel 3). -/
def sampleDefaults : ArgDefaults where
  defListen := true
  defBlocksonly := false
  defWhitelistforcerelay := false
  defAddressindex := false
  defSpentindex := false
  defTimestampindex := false
  defChecklevel := 3

/-- Witness for C5: on `sampleArgs`, proxy/connect force `listen=false` and
`upnp=false`, pruning forces `txindex=false` and `disablegovernance=true`,
and the explicitly set `-dnsseed=1` survives untouched. -/
theorem initParameterInteraction_precedence_witness :
    (InitParameterInteraction sampleDefaults sampleArgs).listen = some false ∧
    (InitParameterInteraction sampleDefaults sampleArgs).upnp = some false ∧
    (InitParameterInteraction sampleDefaults sampleArgs).txindex = some false ∧
    (InitParameterInteraction sampleDefaults sampleArgs).disablegovernance = some true ∧
    (InitParameterInteraction sampleDefaults sampleArgs).dnsseed = some true := by
  have h := initParameterInteraction_precedence sampleDefaults sampleArgs
  refine ⟨h.2.2.1 rfl rfl rfl rfl, h.2.2.2.2.1 rfl rfl, ?_, ?_, ?_⟩
  · exact h.2.2.2.2.2.2.1 (by norm_num [sampleArgs]) rfl
  · exact h.2.2.2.2.2.2.2.1 (by norm_num [sampleArgs]) rfl
  · exact h.2.2.2.2.2.2.2.2.2.1 true rfl

/-!
Chain-state load attempt, from the `do { } while(false)` block of
`AppInitMain` step 7b (`src/init.cpp:1956-2141`), and the surrounding
reindex-recovery loop (`src/init.cpp:1948-2161`).

Collaborator calls (`LoadBlockIndex`, `LoadGenesisBlock`, LevelDB upgrade
and replay, `VerifyDB`, ...) are represented by boolean inputs recording
their outcomes; the globals the loader reads (`fAddressIndex`,
`fTimestampIndex`, `fSpentIndex`, `fHavePruned`, set from disk by
`LoadBlockIndex`) are inputs as well. A `break` that sets `strLoadError`
becomes `softError`; a `return InitError(...)` inside the block becomes
`fatal`; a `break` under `ShutdownRequested()` becomes `shutdownBreak`.
-/

/-- Soft load errors (`strLoadError` values), one per `break` site. -/
inductive LoadErr where
  | errorLoadingBlockDatabase
  | rebuildRequiredAddressIndex
  | rebuildRequiredTimestampIndex
  | rebuildRequiredSpentIndex
  | rebuildRequiredUnprunedMode
  | errorInitializingBlockDatabase
  | errorUpgradingChainstate
  | unableToReplayBlocks
  | failedToCommitEvoDatabase
  | errorUpgradingEvoDatabase
  | blockFromTheFuture
  | corruptedBlockDatabase
  | errorOpeningBlockDatabase
deriving DecidableEq

/-- Immediately-fatal `return InitError(...)` sites inside the load block
(`src/init.cpp:1999-2012`); these bypass the recovery prompt. -/
inductive InitFatal where
  | txindexRequiredForGovernance
  | wrongGenesis
  | wrongDevnetGenesis
deriving DecidableEq

inductive LoadAttemptOutcome where
  | loaded
  | shutdownBreak
  | softError (e : LoadErr)
  | fatal (e : InitFatal)
deriving DecidableEq

/-- The rebuild-required soft errors: the three index-flag mismatch
messages and the back-to-unpruned message ("You need to rebuild the
database using -reindex ...", `src/init.cpp:2016-2035`). -/
def isRebuildRequiredError : LoadErr → Bool
  | LoadErr.rebuildRequiredAddressIndex => true
  | LoadErr.rebuildRequiredTimestampIndex => true
  | LoadErr.rebuildRequiredSpentIndex => true
  | LoadErr.rebuildRequiredUnprunedMode => true
  | _ => false

structure LoadInputs where
  /-- Whether any step of the try-block threw (caught at line 2133). -/
  threwException : Bool
  /-- `ShutdownRequested()` at line 1987. -/
  shutdownAfterOpen : Bool
  /-- Result of `LoadBlockIndex(chainparams)` (line 1993). -/
  loadBlockIndexOk : Bool
  /-- `ShutdownRequested()` at line 1994. -/
  shutdownDuringLoad : Bool
  disableGovernance : Bool
  txindexRequested : Bool
  isRegtest : Bool
  blockIndexEmpty : Bool
  genesisFound : Bool
  hasDevnetGenesisParam : Bool
  devnetGenesisFound : Bool
  /-- Persisted `fAddressIndex` loaded from the block-tree DB. -/
  fAddressIndexDisk : Bool
  addressIndexRequested : Bool
  /-- Persisted `fTimestampIndex` loaded from the block-tree DB. -/
  fTimestampIndexDisk : Bool
  timestampIndexRequested : Bool
  /-- Persisted `fSpentIndex` loaded from the block-tree DB. -/
  fSpentIndexDisk : Bool
  spentIndexRequested : Bool
  /-- Persisted `fHavePruned` (blocks were pruned at some point). -/
  fHavePruned : Bool
  fPruneMode : Bool
  /-- `fReindex` after `LoadBlockIndex` merged the on-disk marker. -/
  fReindexAfterLoad : Bool
  loadGenesisOk : Bool
  coinsDbUpgradeOk : Bool
  replayBlocksOk : Bool
  evoCommitOk : Bool
  coinsBestBlockNull : Bool
  fReset : Bool
  fReindexChainState : Bool
  loadChainTipOk : Bool
  evoDbEmpty : Bool
  evoUpgradeOk : Bool
  tipInFuture : Bool
  verifyDbOk : Bool
deriving DecidableEq

/-- Checks before the feature-flag comparisons, in source order
(`src/init.cpp:1959-2012`): exception catch, shutdown break, block-index
load failure, the governance/txindex guard and the genesis guards. `some o`
means the block exits early with outcome `o`; `none` means control reaches
the flag comparisons. -/
def earlyGuard (i : LoadInputs) : Option LoadAttemptOutcome :=
  if i.threwException then some (LoadAttemptOutcome.softError LoadErr.errorOpeningBlockDatabase)
  else if i.shutdownAfterOpen then some LoadAttemptOutcome.shutdownBreak
  else if !i.loadBlockIndexOk then
    some (if i.shutdownDuringLoad then LoadAttemptOutcome.shutdownBreak
      else LoadAttemptOutcome.softError LoadErr.errorLoadingBlockDatabase)
  else if !i.disableGovernance && !i.txindexRequested && !i.isRegtest then
    some (LoadAttemptOutcome.fatal InitFatal.txindexRequiredForGovernance)
  else if !i.blockIndexEmpty && !i.genesisFound then
    some (LoadAttemptOutcome.fatal InitFatal.wrongGenesis)
  else if i.hasDevnetGenesisParam && !i.blockIndexEmpty && !i.devnetGenesisFound then
    some (LoadAttemptOutcome.fatal InitFatal.wrongDevnetGenesis)
  else none

/-- The four persisted-state comparisons (`src/init.cpp:2014-2037`), in
source order: address index, timestamp index, spent index, pruned-then-
unpruned. `some e` is the `strLoadError` break; `none` continues. -/
def flagGuard (i : LoadInputs) : Option LoadErr :=
  if i.fAddressIndexDisk ≠ i.addressIndexRequested then
    some LoadErr.rebuildRequiredAddressIndex
  else if i.fTimestampIndexDisk ≠ i.timestampIndexRequested then
    some LoadErr.rebuildRequiredTimestampIndex
  else if i.fSpentIndexDisk ≠ i.spentIndexRequested then
    some LoadErr.rebuildRequiredSpentIndex
  else if i.fHavePruned && !i.fPruneMode then
    some LoadErr.rebuildRequiredUnprunedMode
  else none

/-- The remaining checks of the load block (`src/init.cpp:2039-2140`):
genesis initialization, coin-DB upgrade/replay, EvoDB commit, chain-tip
load, EvoDB consistency and upgrade, future-dated tip, `VerifyDB`. -/
def lateChecks (i : LoadInputs) : LoadAttemptOutcome :=
  if !i.fReindexAfterLoad && !i.loadGenesisOk then
    LoadAttemptOutcome.softError LoadErr.errorInitializingBlockDatabase
  else if !i.coinsDbUpgradeOk then
    LoadAttemptOutcome.softError LoadErr.errorUpgradingChainstate
  else if !i.replayBlocksOk then
    LoadAttemptOutcome.softError LoadErr.unableToReplayBlocks
  else if !i.evoCommitOk then
    LoadAttemptOutcome.softError LoadErr.failedToCommitEvoDatabase
  else
    let isCoinsviewEmpty := i.fReset || i.fReindexChainState || i.coinsBestBlockNull
    if !isCoinsviewEmpty && !i.loadChainTipOk then
      LoadAttemptOutcome.softError LoadErr.errorInitializingBlockDatabase
    else if isCoinsviewEmpty && !i.evoDbEmpty then
      LoadAttemptOutcome.softError LoadErr.errorInitializingBlockDatabase
    else if !i.evoUpgradeOk then
      LoadAttemptOutcome.softError LoadErr.errorUpgradingEvoDatabase
    else if !isCoinsviewEmpty && i.tipInFuture then
      LoadAttemptOutcome.softError LoadErr.blockFromTheFuture
    else if !isCoinsviewEmpty && !i.verifyDbOk then
      LoadAttemptOutcome.softError LoadErr.corruptedBlockDatabase
    else LoadAttemptOutcome.loaded

/-- Embedding of one pass through the load block
(`src/init.cpp:1956-2141`): the three stages above in source order. -/
def loadAttempt (i : LoadInputs) : LoadAttemptOutcome :=
  match earlyGuard i with
  | some o => o
  | none =>
    match flagGuard i with
    | some e => LoadAttemptOutcome.softError e
    | none => lateChecks i

/-- A persisted feature flag differs from the requested flag, or blocks
were pruned in the past but pruning is now disabled. -/
def FlagMismatch (i : LoadInputs) : Prop :=
  i.fAddressIndexDisk ≠ i.addressIndexRequested ∨
  i.fTimestampIndexDisk ≠ i.timestampIndexRequested ∨
  i.fSpentIndexDisk ≠ i.spentIndexRequested ∨
  (i.fHavePruned = true ∧ i.fPruneMode = false)

/-- The checks preceding the flag-mismatch checks all pass (no exception,
no shutdown, block index loads, the governance/txindex and genesis guards
do not fire). -/
def PreChecksPass (i : LoadInputs) : Prop :=
  i.threwException = false ∧ i.shutdownAfterOpen = false ∧ i.loadBlockIndexOk = true ∧
  (!i.disableGovernance && !i.txindexRequested && !i.isRegtest) = false ∧
  (!i.blockIndexEmpty && !i.genesisFound) = false ∧
  (i.hasDevnetGenesisParam && !i.blockIndexEmpty && !i.devnetGenesisFound) = false

/-- An early-guard exit is never a successful load. -/
theorem earlyGuard_ne_loaded (i : LoadInputs) (o : LoadAttemptOutcome)
    (h : earlyGuard i = some o) : o ≠ LoadAttemptOutcome.loaded := by
  unfold earlyGuard at h
  split_ifs at h <;> first | (cases h; simp) | simp_all

/-- Under a feature-flag mismatch the flag guard fires, with a
rebuild-required error. -/
theorem flagGuard_mismatch (i : LoadInputs) (hmm : FlagMismatch i) :
    ∃ e, flagGuard i = some e ∧ isRebuildRequiredError e = true := by
  unfold flagGuard
  split_ifs <;> first
    | exact ⟨_, rfl, rfl⟩
    | simp_all [FlagMismatch]

/-- C2: whenever a persisted feature flag (address, timestamp or spent
index) differs from the requested flag, or blocks were pruned in the past
but pruning is now disabled, the load attempt never succeeds (the loader
never proceeds to use the existing database under the new flags), and —
provided no earlier check failed first — it fails precisely with a
rebuild-required error. -/
theorem loadAttempt_flag_mismatch (i : LoadInputs) (hmm : FlagMismatch i) :
    loadAttempt i ≠ LoadAttemptOutcome.loaded ∧
    (PreChecksPass i → ∃ e, loadAttempt i = LoadAttemptOutcome.softError e ∧
      isRebuildRequiredError e = true) := by
  obtain ⟨e, he, hre⟩ := flagGuard_mismatch i hmm
  constructor
  · unfold loadAttempt
    cases h : earlyGuard i with
    | some o => exact earlyGuard_ne_loaded i o h
    | none => simp [he]
  · intro hpre
    have hearly : earlyGuard i = none := by
      obtain ⟨h1, h2, h3, h4, h5, h6⟩ := hpre
      unfold earlyGuard
      simp [h1, h2, h3, h4, h5, h6]
    unfold loadAttempt
    simp [hearly, he]
    exact hre

/-- Concrete load inputs: healthy database except that `-spentindex` is
requested while the persisted flag is off. -/
def sampleMismatchInputs : LoadInputs where
  threwException := false
  shutdownAfterOpen := false
  loadBlockIndexOk := true
  shutdownDuringLoad := false
  disableGovernance := false
  txindexRequested := true
  isRegtest := false
  blockIndexEmpty := false
  genesisFound := true
  hasDevnetGenesisParam := false
  devnetGenesisFound := false
  fAddressIndexDisk := false
  addressIndexRequested := false
  fTimestampIndexDisk := false
  timestampIndexRequested := false
  fSpentIndexDisk := false
  spentIndexRequested := true
  fHavePruned := false
  fPruneMode := false
  fReindexAfterLoad := false
  loadGenesisOk := true
  coinsDbUpgradeOk := true
  replayBlocksOk := true
  evoCommitOk := true
  coinsBestBlockNull := false
  fReset := false
  fReindexChainState := false
  loadChainTipOk := true
  evoDbEmpty := false
  evoUpgradeOk := true
  tipInFuture := false
  verifyDbOk := true

/-- Witness for C2: with `-spentindex` newly requested, the load attempt
fails with a rebuild-required error. -/
theorem loadAttempt_flag_mismatch_witness :
    loadAttempt sampleMismatchInputs ≠ LoadAttemptOutcome.loaded ∧
    ∃ e, loadAttempt sampleMismatchInputs = LoadAttemptOutcome.softError e ∧
      isRebuildRequiredError e = true := by
  have h := loadAttempt_flag_mismatch sampleMismatchInputs
    (Or.inr (Or.inr (Or.inl (by decide))))
  exact ⟨h.1, h.2 ⟨rfl, rfl, rfl, rfl, rfl, rfl⟩⟩

/-! Recovery loop around the load attempt (`src/init.cpp:1948-2161`). -/

inductive StartupResult where
  | started
  /-- A `return InitError(...)` fired inside the load block (lines 1999-2012). -/
  | fatalInit (e : InitFatal)
  /-- Line 2158: `return InitError(strLoadError)` — the retry with reindex
  requested failed again. -/
  | fatalLoadError (e : LoadErr)
  /-- Lines 2153-2155: the user declined the rebuild prompt. -/
  | abortedRebuildDeclined
  /-- Lines 2166-2168: shutdown was requested during the load. -/
  | shutdownExit
  /-- Fuel exhausted (modelling artifact, unreachable with fuel ≥ 2). -/
  | stalled
deriving DecidableEq

structure LoopRun where
  result : StartupResult
  prompts : Nat
deriving DecidableEq

/--
Embedding of the `while (!fLoaded && !ShutdownRequested())` loop
(`src/init.cpp:1950-2161`). `attempt k` is the outcome of the k-th pass
through the load block (each pass tears down and reopens all handles,
lines 1962-1978); `fReindex` is the loop's mutable flag, copied into
`fReset` at each iteration head (line 1951). On a soft failure with
`fReset` false the user is asked whether to rebuild (lines 2145-2156):
accepting sets `fReindex = true` (with `AbortShutdown()`) and iterates,
declining aborts. With `fReset` already true the load error is returned
(line 2158). `prompts` counts rebuild questions asked.
-/
def loadLoop (attempt : Nat → LoadAttemptOutcome) (userAccepts : Bool) :
    Nat → Nat → Bool → LoopRun
  | 0, _, _ => ⟨StartupResult.stalled, 0⟩
  | fuel + 1, k, fReindex =>
    match attempt k with
    | LoadAttemptOutcome.loaded => ⟨StartupResult.started, 0⟩
    | LoadAttemptOutcome.fatal e => ⟨StartupResult.fatalInit e, 0⟩
    | LoadAttemptOutcome.shutdownBreak => ⟨StartupResult.shutdownExit, 0⟩
    | LoadAttemptOutcome.softError e =>
      if fReindex then ⟨StartupResult.fatalLoadError e, 0⟩
      else if userAccepts then
        let r := loadLoop attempt userAccepts fuel (k + 1) true
        ⟨r.result, r.prompts + 1⟩
      else ⟨StartupResult.abortedRebuildDeclined, 1⟩

/-- Once `fReindex` is set, the loop never prompts again: any further soft
failure returns the load error directly. -/
theorem loadLoop_reindex_no_prompt (attempt : Nat → LoadAttemptOutcome)
    (accepts : Bool) (fuel k : Nat) :
    (loadLoop attempt accepts fuel k true).prompts = 0 := by
  cases fuel with
  | zero => rfl
  | succ n =>
    cases h : attempt k <;> simp [loadLoop, h]

/-- C4: the orchestrator offers exactly one recovery path. Starting with
reindex not yet requested: at most one rebuild prompt is ever shown; a
declined prompt aborts the process; if the accepted retry (now with
reindex requested) fails again with a load error, that error is returned
with no second prompt; an in-block fatal error is returned at once with no
prompt and no retry; a successful load starts up with no prompt. -/
theorem loadLoop_single_recovery (attempt : Nat → LoadAttemptOutcome)
    (accepts : Bool) (fuel : Nat) (e e2 : LoadErr) (f : InitFatal) :
    ((loadLoop attempt accepts fuel 0 false).prompts ≤ 1) ∧
    (attempt 0 = LoadAttemptOutcome.softError e → accepts = false →
      loadLoop attempt accepts (fuel + 1) 0 false =
        ⟨StartupResult.abortedRebuildDeclined, 1⟩) ∧
    (attempt 0 = LoadAttemptOutcome.softError e → accepts = true →
      attempt 1 = LoadAttemptOutcome.softError e2 →
      loadLoop attempt accepts (fuel + 2) 0 false =
        ⟨StartupResult.fatalLoadError e2, 1⟩) ∧
    (attempt 0 = LoadAttemptOutcome.fatal f →
      loadLoop attempt accepts (fuel + 1) 0 false = ⟨StartupResult.fatalInit f, 0⟩) ∧
    (attempt 0 = LoadAttemptOutcome.loaded →
      loadLoop attempt accepts (fuel + 1) 0 false = ⟨StartupResult.started, 0⟩) := by
  refine ⟨?_, ?_, ?_, ?_, ?_⟩
  · cases fuel with
    | zero => simp [loadLoop]
    | succ n =>
      cases h : attempt 0 <;> simp [loadLoop, h]
      cases accepts <;> simp [loadLoop_reindex_no_prompt]
  · intro h hacc
    simp [loadLoop, h, hacc]
  · intro h hacc h2
    simp [loadLoop, h, hacc, h2]
  · intro h
    simp [loadLoop, h]
  · intro h
    simp [loadLoop, h]

/-- Attempt schedule in which the first load pass hits a corruption error
and the reindex retry fails again. -/
def sampleAttempts : Nat → LoadAttemptOutcome
  | 0 => LoadAttemptOutcome.softError LoadErr.corruptedBlockDatabase
  | 1 => LoadAttemptOutcome.softError LoadErr.errorLoadingBlockDatabase
  | _ => LoadAttemptOutcome.loaded

/-- Witness for C4: with `sampleAttempts`, declining aborts after one
prompt, and accepting leads to the retry's load error after the same
single prompt. -/
theorem loadLoop_single_recovery_witness :
    loadLoop sampleAttempts false 5 0 false =
      ⟨StartupResult.abortedRebuildDeclined, 1⟩ ∧
    loadLoop sampleAttempts true 5 0 false =
      ⟨StartupResult.fatalLoadError LoadErr.errorLoadingBlockDatabase, 1⟩ ∧
    (loadLoop sampleAttempts true 5 0 false).prompts ≤ 1 := by
  have h1 := loadLoop_single_recovery sampleAttempts false 4
    LoadErr.corruptedBlockDatabase LoadErr.errorLoadingBlockDatabase
    InitFatal.wrongGenesis
  have h2 := loadLoop_single_recovery sampleAttempts true 3
    LoadErr.corruptedBlockDatabase LoadErr.errorLoadingBlockDatabase
    InitFatal.wrongGenesis
  have h3 := loadLoop_single_recovery sampleAttempts true 5
    LoadErr.corruptedBlockDatabase LoadErr.errorLoadingBlockDatabase
    InitFatal.wrongGenesis
  exact ⟨h1.2.1 rfl rfl, h2.2.2.1 rfl rfl rfl, h3.1⟩

/-!
Block import pipeline, from `ThreadImport` (`src/init.cpp:862-959`), and
the reindex preparation block of `AppInitMain` (`src/init.cpp:1980-1985`).

The pipeline's file-system interactions are inputs: `fileExists n` is
`fs::exists(GetBlockPosFilename(FlatFilePos(n, 0)))`, `fileOpens n` the
success of `OpenBlockFile`, `shutdownAfterBlockFile n` the value of
`ShutdownRequested()` observed after replaying block file `n`. The
`-loadblock` sources are `(identifier, readable)` pairs;
`shutdownAfterLoadFile` is indexed by position among those sources. The
reindex loop is fuelled (`fuelOut` is a modelling artifact excluded by each
theorem's fuel hypothesis).
-/

structure ImportInputs where
  fReindex : Bool
  fileExists : Nat → Bool
  fileOpens : Nat → Bool
  shutdownAfterBlockFile : Nat → Bool
  bootstrapPresent : Bool
  bootstrapOpens : Bool
  renameOk : Bool
  loadFiles : List (Nat × Bool)
  shutdownAfterLoadFile : Nat → Bool
  abcOk : Bool
  stopAfterImport : Bool

structure ImportState where
  replayedBlockFiles : List Nat
  /-- The on-disk `WriteReindexing` marker inside the block-tree DB. -/
  reindexMarkerOnDisk : Bool
  /-- The in-memory global `fReindex`. -/
  fReindex : Bool
  /-- Whether `LoadGenesisBlock` was re-attempted after the reindex loop
  (line 893; the call is an idempotent no-op when genesis is present). -/
  genesisReattempted : Bool
  bootstrapReplayed : Bool
  bootstrapRenamed : Bool
  warnedBootstrap : Bool
  renameFailureThrown : Bool
  replayedLoadFiles : List Nat
  warnedLoadFiles : List Nat
  abcAttempted : Bool
  shutdownStarted : Bool
  /-- Whether control reached the post-import warm-ups (lines 942-959). -/
  reachedPostImport : Bool
deriving DecidableEq

inductive ReindexExit where
  | exhausted
  | shutdownReturn
  | fuelOut
deriving DecidableEq

/-- The `-reindex` loop (`src/init.cpp:872-888`): iterate `nFile` from 0,
break at the first missing (or unopenable) file, replay each opened file,
and return from the whole thread if shutdown is requested after a file. -/
def reindexLoop (inp : ImportInputs) : Nat → Nat → List Nat → List Nat × ReindexExit
  | 0, _, acc => (acc, ReindexExit.fuelOut)
  | fuel + 1, n, acc =>
    if !inp.fileExists n then (acc, ReindexExit.exhausted)
    else if !inp.fileOpens n then (acc, ReindexExit.exhausted)
    else
      let acc2 := acc ++ [n]
      if inp.shutdownAfterBlockFile n then (acc2, ReindexExit.shutdownReturn)
      else reindexLoop inp fuel (n + 1) acc2

/-- State when `ThreadImport` starts: when a reindex was requested,
`AppInitMain` has already written the on-disk reindexing marker
(line 1981). -/
def initialImportState (inp : ImportInputs) : ImportState where
  replayedBlockFiles := []
  reindexMarkerOnDisk := inp.fReindex
  fReindex := inp.fReindex
  genesisReattempted := false
  bootstrapReplayed := false
  bootstrapRenamed := false
  warnedBootstrap := false
  renameFailureThrown := false
  replayedLoadFiles := []
  warnedLoadFiles := []
  abcAttempted := false
  shutdownStarted := false
  reachedPostImport := false

/-- The reindex phase (`src/init.cpp:872-894`): on loop exhaustion it
clears the on-disk marker (`WriteReindexing(false)`), clears `fReindex`,
and re-attempts genesis initialization; on shutdown it returns from the
thread with the marker untouched. The second component is false when the
thread returns early. -/
def runReindexPhase (inp : ImportInputs) (fuel : Nat) (s : ImportState) :
    ImportState × Bool :=
  if s.fReindex then
    match reindexLoop inp fuel 0 [] with
    | (files, ReindexExit.exhausted) =>
      ({ s with replayedBlockFiles := files, reindexMarkerOnDisk := false,
                fReindex := false, genesisReattempted := true }, true)
    | (files, ReindexExit.shutdownReturn) =>
      ({ s with replayedBlockFiles := files }, false)
    | (files, ReindexExit.fuelOut) =>
      ({ s with replayedBlockFiles := files }, false)
  else (s, true)

/-- The bootstrap phase (`src/init.cpp:896-910`): if `bootstrap.dat`
exists, open it; on success replay it and rename it (a failed rename
throws); on open failure log a warning and continue. -/
def runBootstrapPhase (inp : ImportInputs) (s : ImportState) : ImportState × Bool :=
  if inp.bootstrapPresent then
    if inp.bootstrapOpens then
      let s2 := { s with bootstrapReplayed := true }
      if inp.renameOk then ({ s2 with bootstrapRenamed := true }, true)
      else ({ s2 with renameFailureThrown := true }, false)
    else ({ s with warnedBootstrap := true }, true)
  else (s, true)

/-- The `-loadblock` phase (`src/init.cpp:912-925`): each source that opens
is replayed (returning from the thread if shutdown is then requested);
each source that does not open gets a warning and is skipped. -/
def runLoadFilesLoop (sd : Nat → Bool) :
    List (Nat × Bool) → Nat → ImportState → ImportState × Bool
  | [], _, s => (s, true)
  | f :: rest, pos, s =>
    if f.2 then
      let s2 := { s with replayedLoadFiles := s.replayedLoadFiles ++ [f.1] }
      if sd pos then (s2, false)
      else runLoadFilesLoop sd rest (pos + 1) s2
    else
      runLoadFilesLoop sd rest (pos + 1)
        { s with warnedLoadFiles := s.warnedLoadFiles ++ [f.1] }

/-- The activation phase (`src/init.cpp:927-939`): `ActivateBestChain`
failure calls `StartShutdown()` and returns; `-stopafterblockimport` also
starts shutdown and returns. -/
def runBestChainPhase (inp : ImportInputs) (s : ImportState) : ImportState × Bool :=
  let s2 := { s with abcAttempted := true }
  if !inp.abcOk then ({ s2 with shutdownStarted := true }, false)
  else if inp.stopAfterImport then ({ s2 with shutdownStarted := true }, false)
  else (s2, true)

/-- Embedding of `ThreadImport` (`src/init.cpp:862-959`): the phases in
source order, stopping at the first phase that returns from the thread
(second component false). -/
def ThreadImport (inp : ImportInputs) (fuel : Nat) : ImportState :=
  let r1 := runReindexPhase inp fuel (initialImportState inp)
  if r1.2 = false then r1.1
  else
    let r2 := runBootstrapPhase inp r1.1
    if r2.2 = false then r2.1
    else
      let r3 := runLoadFilesLoop inp.shutdownAfterLoadFile inp.loadFiles 0 r2.1
      if r3.2 = false then r3.1
      else
        let r4 := runBestChainPhase inp r3.1
        if r4.2 = false then r4.1
        else { r4.1 with reachedPostImport := true }

/-- With files 0..m-1 present and openable, file m missing, and no shutdown
request, the reindex loop from position k replays exactly files k..m-1 and
exits by exhaustion. -/
theorem reindexLoop_exhausts (inp : ImportInputs) (m : Nat)
    (hex : ∀ n, n < m → inp.fileExists n = true)
    (hmiss : inp.fileExists m = false)
    (hop : ∀ n, n < m → inp.fileOpens n = true)
    (hsd : ∀ n, n < m → inp.shutdownAfterBlockFile n = false) :
    ∀ fuel k acc, m < k + fuel → k ≤ m →
      reindexLoop inp fuel k acc = (acc ++ List.range' k (m - k), ReindexExit.exhausted) := by
  intro fuel
  induction fuel with
  | zero => intro k acc h1 h2; omega
  | succ f ih =>
    intro k acc h1 h2
    rcases Nat.eq_or_lt_of_le h2 with hk | hk
    · subst hk
      simp [reindexLoop, hmiss]
    · have he := hex k hk
      have ho := hop k hk
      have hs := hsd k hk
      have hrec := ih (k + 1) (acc ++ [k]) (by omega) (by omega)
      simp only [reindexLoop, he, ho, hs, Bool.not_true, if_false, if_true]
      rw [hrec]
      have hr : List.range' k (m - k) = k :: List.range' (k + 1) (m - (k + 1)) := by
        have : m - k = (m - (k + 1)) + 1 := by omega
        rw [this, List.range'_succ]
      rw [hr]
      simp

/-- With files 0..k present and openable and a shutdown request observed
right after file k, the reindex loop replays files 0..k and returns early. -/
theorem reindexLoop_shutdown (inp : ImportInputs) (k : Nat)
    (hex : ∀ n, n ≤ k → inp.fileExists n = true)
    (hop : ∀ n, n ≤ k → inp.fileOpens n = true)
    (hsd : ∀ n, n < k → inp.shutdownAfterBlockFile n = false)
    (hstop : inp.shutdownAfterBlockFile k = true) :
    ∀ fuel j acc, k < j + fuel → j ≤ k →
      reindexLoop inp fuel j acc =
        (acc ++ List.range' j (k + 1 - j), ReindexExit.shutdownReturn) := by
  intro fuel
  induction fuel with
  | zero => intro j acc h1 h2; omega
  | succ f ih =>
    intro j acc h1 h2
    rcases Nat.eq_or_lt_of_le h2 with hj | hj
    · subst hj
      have hone : j + 1 - j = 1 := by omega
      simp [reindexLoop, hex j (le_refl j), hop j (le_refl j), hstop, hone,
        List.range'_one]
    · have he := hex j (by omega)
      have ho := hop j (by omega)
      have hs := hsd j hj
      have hrec := ih (j + 1) (acc ++ [j]) (by omega) (by omega)
      simp only [reindexLoop, he, ho, hs, Bool.not_true, if_false, if_true]
      rw [hrec]
      have hr : List.range' j (k + 1 - j) = j :: List.range' (j + 1) (k + 1 - (j + 1)) := by
        have : k + 1 - j = (k + 1 - (j + 1)) + 1 := by omega
        rw [this, List.range'_succ]
      rw [hr]
      simp

/-- The `-loadblock` phase leaves every field other than
`replayedLoadFiles` and `warnedLoadFiles` untouched. -/
theorem runLoadFilesLoop_preserves (sd : Nat → Bool) :
    ∀ (files : List (Nat × Bool)) (pos : Nat) (s : ImportState),
      ((runLoadFilesLoop sd files pos s).1).replayedBlockFiles = s.replayedBlockFiles ∧
      ((runLoadFilesLoop sd files pos s).1).reindexMarkerOnDisk = s.reindexMarkerOnDisk ∧
      ((runLoadFilesLoop sd files pos s).1).fReindex = s.fReindex ∧
      ((runLoadFilesLoop sd files pos s).1).genesisReattempted = s.genesisReattempted ∧
      ((runLoadFilesLoop sd files pos s).1).warnedBootstrap = s.warnedBootstrap ∧
      ((runLoadFilesLoop sd files pos s).1).bootstrapReplayed = s.bootstrapReplayed ∧
      ((runLoadFilesLoop sd files pos s).1).reachedPostImport = s.reachedPostImport := by
  intro files
  induction files with
  | nil => intro pos s; simp [runLoadFilesLoop]
  | cons f rest ih =>
    intro pos s
    by_cases h2 : f.2 = true
    · by_cases hsd : sd pos = true
      · simp [runLoadFilesLoop, h2, hsd]
      · simp only [runLoadFilesLoop, h2, hsd, Bool.false_eq_true, if_true, if_false]
        exact ih (pos + 1) _
    · simp only [runLoadFilesLoop, h2, Bool.false_eq_true, if_false]
      exact ih (pos + 1) _

/-- With no shutdown request during the `-loadblock` phase, the phase
replays exactly the readable sources and warns on exactly the unreadable
ones, in order, then continues. -/
theorem runLoadFilesLoop_no_shutdown (sd : Nat → Bool) (hsd : ∀ k, sd k = false) :
    ∀ (files : List (Nat × Bool)) (pos : Nat) (s : ImportState),
      runLoadFilesLoop sd files pos s =
        ({ s with
            replayedLoadFiles :=
              s.replayedLoadFiles ++ (files.filter (fun f => f.2)).map Prod.fst
            warnedLoadFiles :=
              s.warnedLoadFiles ++ (files.filter (fun f => !f.2)).map Prod.fst },
          true) := by
  intro files
  induction files with
  | nil => intro pos s; simp [runLoadFilesLoop]
  | cons f rest ih =>
    intro pos s
    by_cases h2 : f.2 = true
    · simp only [runLoadFilesLoop, h2, hsd pos, Bool.false_eq_true, if_true, if_false]
      rw [ih (pos + 1)]
      simp [h2, List.filter_cons]
    · simp only [runLoadFilesLoop, h2, Bool.false_eq_true, if_false]
      rw [ih (pos + 1)]
      have h2f : f.2 = false := by simpa using h2
      simp [List.filter_cons, h2f]

/-- The bootstrap phase leaves every field other than the bootstrap ones
untouched. -/
theorem runBootstrapPhase_preserves (inp : ImportInputs) (s : ImportState) :
    ((runBootstrapPhase inp s).1).replayedBlockFiles = s.replayedBlockFiles ∧
    ((runBootstrapPhase inp s).1).reindexMarkerOnDisk = s.reindexMarkerOnDisk ∧
    ((runBootstrapPhase inp s).1).fReindex = s.fReindex ∧
    ((runBootstrapPhase inp s).1).genesisReattempted = s.genesisReattempted ∧
    ((runBootstrapPhase inp s).1).reachedPostImport = s.reachedPostImport := by
  unfold runBootstrapPhase
  split_ifs <;> simp

/-- When the bootstrap rename succeeds (or never happens), the bootstrap
phase always continues to the next sources. -/
theorem runBootstrapPhase_continues (inp : ImportInputs) (s : ImportState)
    (hrename : inp.renameOk = true) :
    (runBootstrapPhase inp s).2 = true := by
  unfold runBootstrapPhase
  split_ifs <;> simp_all

/-- The activation phase leaves the import bookkeeping fields untouched,
always records that activation was attempted, and never reaches the
post-import warm-ups itself. -/
theorem runBestChainPhase_preserves (inp : ImportInputs) (s : ImportState) :
    ((runBestChainPhase inp s).1).replayedBlockFiles = s.replayedBlockFiles ∧
    ((runBestChainPhase inp s).1).reindexMarkerOnDisk = s.reindexMarkerOnDisk ∧
    ((runBestChainPhase inp s).1).fReindex = s.fReindex ∧
    ((runBestChainPhase inp s).1).genesisReattempted = s.genesisReattempted ∧
    ((runBestChainPhase inp s).1).reachedPostImport = s.reachedPostImport ∧
    ((runBestChainPhase inp s).1).abcAttempted = true := by
  unfold runBestChainPhase
  split_ifs <;> simp

/-- A reindex phase that returns early ends the thread with its state. -/
theorem threadImport_early_return (inp : ImportInputs) (fuel : Nat)
    (S1 : ImportState)
    (h1 : runReindexPhase inp fuel (initialImportState inp) = (S1, false)) :
    ThreadImport inp fuel = S1 := by
  simp [ThreadImport, h1]

/-- Whatever the later phases do, they never change the reindex
bookkeeping left by a completed reindex phase. -/
theorem threadImport_fields_after_reindex (inp : ImportInputs) (fuel : Nat)
    (S1 : ImportState)
    (h1 : runReindexPhase inp fuel (initialImportState inp) = (S1, true)) :
    (ThreadImport inp fuel).replayedBlockFiles = S1.replayedBlockFiles ∧
    (ThreadImport inp fuel).reindexMarkerOnDisk = S1.reindexMarkerOnDisk ∧
    (ThreadImport inp fuel).fReindex = S1.fReindex ∧
    (ThreadImport inp fuel).genesisReattempted = S1.genesisReattempted := by
  unfold ThreadImport
  rw [h1]
  have hbp := runBootstrapPhase_preserves inp S1
  rcases hb : runBootstrapPhase inp S1 with ⟨s2, c2⟩
  rw [hb] at hbp
  simp only [hb]
  cases c2 with
  | false => simpa using ⟨hbp.1, hbp.2.1, hbp.2.2.1, hbp.2.2.2.1⟩
  | true =>
    have hlp := runLoadFilesLoop_preserves inp.shutdownAfterLoadFile inp.loadFiles 0 s2
    rcases hl : runLoadFilesLoop inp.shutdownAfterLoadFile inp.loadFiles 0 s2 with ⟨s3, c3⟩
    rw [hl] at hlp
    simp only [hl]
    cases c3 with
    | false =>
      simpa using ⟨hlp.1.trans hbp.1, hlp.2.1.trans hbp.2.1,
        hlp.2.2.1.trans hbp.2.2.1, hlp.2.2.2.1.trans hbp.2.2.2.1⟩
    | true =>
      have hcp := runBestChainPhase_preserves inp s3
      rcases hc : runBestChainPhase inp s3 with ⟨s4, c4⟩
      rw [hc] at hcp
      simp only [hc]
      cases c4 with
      | false =>
        simpa using ⟨(hcp.1.trans hlp.1).trans hbp.1,
          (hcp.2.1.trans hlp.2.1).trans hbp.2.1,
          (hcp.2.2.1.trans hlp.2.2.1).trans hbp.2.2.1,
          (hcp.2.2.2.1.trans hlp.2.2.2.1).trans hbp.2.2.2.1⟩
      | true =>
        simpa using ⟨(hcp.1.trans hlp.1).trans hbp.1,
          (hcp.2.1.trans hlp.2.1).trans hbp.2.1,
          (hcp.2.2.1.trans hlp.2.2.1).trans hbp.2.2.1,
          (hcp.2.2.2.1.trans hlp.2.2.2.1).trans hbp.2.2.2.1⟩

/-- Shared core for C6 and C10: a reindex whose contiguous files 0..m-1
all replay (file m missing, no shutdown) ends with exactly those files
replayed in ascending order, the on-disk marker cleared, the in-memory
flag cleared, and genesis initialization re-attempted. -/
theorem threadImport_exhaust_aux (inp : ImportInputs) (fuel m : Nat)
    (hre : inp.fReindex = true)
    (hex : ∀ n, n < m → inp.fileExists n = true)
    (hmiss : inp.fileExists m = false)
    (hop : ∀ n, n < m → inp.fileOpens n = true)
    (hsd : ∀ n, n < m → inp.shutdownAfterBlockFile n = false)
    (hfuel : m < fuel) :
    (ThreadImport inp fuel).replayedBlockFiles = List.range m ∧
    (ThreadImport inp fuel).reindexMarkerOnDisk = false ∧
    (ThreadImport inp fuel).fReindex = false ∧
    (ThreadImport inp fuel).genesisReattempted = true := by
  have hloop := reindexLoop_exhausts inp m hex hmiss hop hsd fuel 0 []
    (by omega) (Nat.zero_le m)
  have h1 : runReindexPhase inp fuel (initialImportState inp) =
      ({ initialImportState inp with
          replayedBlockFiles := List.range m, reindexMarkerOnDisk := false,
          fReindex := false, genesisReattempted := true }, true) := by
    unfold runReindexPhase
    simp [initialImportState, hre, hloop, List.range_eq_range']
  simpa using threadImport_fields_after_reindex inp fuel _ h1

/-- Shared core for C10: a shutdown observed after replaying file k makes
the thread return with files 0..k replayed and the reindex marker, the
in-memory flag, and the not-yet-reattempted genesis state untouched. -/
theorem threadImport_shutdown_aux (inp : ImportInputs) (fuel k : Nat)
    (hre : inp.fReindex = true)
    (hex : ∀ n, n ≤ k → inp.fileExists n = true)
    (hop : ∀ n, n ≤ k → inp.fileOpens n = true)
    (hsd : ∀ n, n < k → inp.shutdownAfterBlockFile n = false)
    (hstop : inp.shutdownAfterBlockFile k = true)
    (hfuel : k < fuel) :
    ThreadImport inp fuel =
      { initialImportState inp with replayedBlockFiles := List.range (k + 1) } := by
  have hloop := reindexLoop_shutdown inp k hex hop hsd hstop fuel 0 []
    (by omega) (Nat.zero_le k)
  have h1 : runReindexPhase inp fuel (initialImportState inp) =
      ({ initialImportState inp with replayedBlockFiles := List.range (k + 1) },
        false) := by
    unfold runReindexPhase
    simp [initialImportState, hre, hloop, List.range_eq_range']
  exact threadImport_early_return inp fuel _ h1

/-- C6: when a reindex is requested, the import pipeline iterates block
files by ascending numeric suffix starting at file 0, stops at the first
missing file, replays each existing file, and only after exhausting the
files clears the reindexing state (on-disk marker and in-memory flag) and
re-attempts genesis-block initialization (an idempotent no-op when the
genesis block is already present). -/
theorem threadImport_reindex_complete (inp : ImportInputs) (fuel m : Nat)
    (hre : inp.fReindex = true)
    (hex : ∀ n, n < m → inp.fileExists n = true)
    (hmiss : inp.fileExists m = false)
    (hop : ∀ n, n < m → inp.fileOpens n = true)
    (hsd : ∀ n, n < m → inp.shutdownAfterBlockFile n = false)
    (hfuel : m < fuel) :
    (ThreadImport inp fuel).replayedBlockFiles = List.range m ∧
    (ThreadImport inp fuel).reindexMarkerOnDisk = false ∧
    (ThreadImport inp fuel).fReindex = false ∧
    (ThreadImport inp fuel).genesisReattempted = true :=
  threadImport_exhaust_aux inp fuel m hre hex hmiss hop hsd hfuel

/-- Reindex inputs: block files 0, 1, 2 on disk, file 3 missing, no
shutdown request, no other sources. -/
def sampleReindexInputs : ImportInputs where
  fReindex := true
  fileExists := fun n => decide (n < 3)
  fileOpens := fun _ => true
  shutdownAfterBlockFile := fun _ => false
  bootstrapPresent := false
  bootstrapOpens := false
  renameOk := true
  loadFiles := []
  shutdownAfterLoadFile := fun _ => false
  abcOk := true
  stopAfterImport := false

/-- Witness for C6: files 0-2 are replayed in order, the marker and flag
are cleared, and genesis initialization is re-attempted. -/
theorem threadImport_reindex_complete_witness :
    (ThreadImport sampleReindexInputs 5).replayedBlockFiles = [0, 1, 2] ∧
    (ThreadImport sampleReindexInputs 5).reindexMarkerOnDisk = false ∧
    (ThreadImport sampleReindexInputs 5).fReindex = false ∧
    (ThreadImport sampleReindexInputs 5).genesisReattempted = true := by
  have h := threadImport_reindex_complete sampleReindexInputs 5 3 rfl
    (fun n hn => by simpa [sampleReindexInputs] using hn) (by rfl)
    (fun _ _ => rfl) (fun _ _ => rfl) (by omega)
  exact ⟨h.1.trans (by decide), h.2.1, h.2.2.1, h.2.2.2⟩

/-- C7: every import source that cannot be opened for reading (the
bootstrap file here, and each unreadable `-loadblock` source) is skipped
with a warning while the pipeline continues: the readable sources are all
replayed in order and the pipeline still reaches best-chain activation. -/
theorem threadImport_skips_unreadable (inp : ImportInputs) (fuel : Nat)
    (hre : inp.fReindex = false)
    (hsd : ∀ k, inp.shutdownAfterLoadFile k = false)
    (hboot : inp.bootstrapPresent = true)
    (hbopen : inp.bootstrapOpens = false) :
    (ThreadImport inp fuel).warnedBootstrap = true ∧
    (ThreadImport inp fuel).bootstrapReplayed = false ∧
    (ThreadImport inp fuel).warnedLoadFiles =
      (inp.loadFiles.filter (fun f => !f.2)).map Prod.fst ∧
    (ThreadImport inp fuel).replayedLoadFiles =
      (inp.loadFiles.filter (fun f => f.2)).map Prod.fst ∧
    (ThreadImport inp fuel).abcAttempted = true := by
  unfold ThreadImport
  have h1 : runReindexPhase inp fuel (initialImportState inp) =
      (initialImportState inp, true) := by
    simp [runReindexPhase, initialImportState, hre]
  rw [h1]
  have h2 : runBootstrapPhase inp (initialImportState inp) =
      ({ initialImportState inp with warnedBootstrap := true }, true) := by
    simp [runBootstrapPhase, hboot, hbopen]
  simp only [h1, h2]
  rw [runLoadFilesLoop_no_shutdown inp.shutdownAfterLoadFile hsd]
  simp only [runBestChainPhase]
  split_ifs <;> simp_all [initialImportState]

/-- C8: once all import sources are replayed the pipeline attempts
best-chain activation, and an activation failure starts full process
shutdown instead of continuing to the post-import warm-ups. -/
theorem threadImport_abc_failure (inp : ImportInputs) (fuel : Nat)
    (hre : inp.fReindex = false)
    (hsd : ∀ k, inp.shutdownAfterLoadFile k = false)
    (hrename : inp.renameOk = true)
    (habc : inp.abcOk = false) :
    (ThreadImport inp fuel).abcAttempted = true ∧
    (ThreadImport inp fuel).shutdownStarted = true ∧
    (ThreadImport inp fuel).reachedPostImport = false := by
  unfold ThreadImport
  have h1 : runReindexPhase inp fuel (initialImportState inp) =
      (initialImportState inp, true) := by
    simp [runReindexPhase, initialImportState, hre]
  rw [h1]
  have hc2 := runBootstrapPhase_continues inp (initialImportState inp) hrename
  have hbp := runBootstrapPhase_preserves inp (initialImportState inp)
  rcases hb : runBootstrapPhase inp (initialImportState inp) with ⟨s2, c2⟩
  rw [hb] at hc2 hbp
  simp only at hc2
  subst hc2
  simp only [hb]
  rw [runLoadFilesLoop_no_shutdown inp.shutdownAfterLoadFile hsd]
  simp only [runBestChainPhase, habc]
  have hreach : s2.reachedPostImport = false := by
    have : (initialImportState inp).reachedPostImport = false := rfl
    simpa [this] using hbp.2.2.2.2
  simp [hreach]

/-- Bootstrap plus `-loadblock` inputs: bootstrap present but unreadable;
sources 10 and 12 readable, source 11 unreadable. -/
def sampleSourcesInputs : ImportInputs where
  fReindex := false
  fileExists := fun _ => false
  fileOpens := fun _ => true
  shutdownAfterBlockFile := fun _ => false
  bootstrapPresent := true
  bootstrapOpens := false
  renameOk := true
  loadFiles := [(10, true), (11, false), (12, true)]
  shutdownAfterLoadFile := fun _ => false
  abcOk := true
  stopAfterImport := false

/-- Witness for C7: the unreadable bootstrap and source 11 are warned and
skipped; sources 10 and 12 are replayed; activation is still attempted. -/
theorem threadImport_skips_unreadable_witness :
    (ThreadImport sampleSourcesInputs 1).warnedBootstrap = true ∧
    (ThreadImport sampleSourcesInputs 1).bootstrapReplayed = false ∧
    (ThreadImport sampleSourcesInputs 1).warnedLoadFiles = [11] ∧
    (ThreadImport sampleSourcesInputs 1).replayedLoadFiles = [10, 12] ∧
    (ThreadImport sampleSourcesInputs 1).abcAttempted = true := by
  have h := threadImport_skips_unreadable sampleSourcesInputs 1 rfl
    (fun _ => rfl) rfl rfl
  exact ⟨h.1, h.2.1, h.2.2.1.trans (by decide), h.2.2.2.1.trans (by decide),
    h.2.2.2.2⟩

/-- Inputs on which `ActivateBestChain` fails (no reindex, readable
bootstrap absent, one readable source). -/
def sampleAbcFailInputs : ImportInputs where
  fReindex := false
  fileExists := fun _ => false
  fileOpens := fun _ => true
  shutdownAfterBlockFile := fun _ => false
  bootstrapPresent := false
  bootstrapOpens := false
  renameOk := true
  loadFiles := [(7, true)]
  shutdownAfterLoadFile := fun _ => false
  abcOk := false
  stopAfterImport := false

/-- Witness for C8: a failed best-chain activation starts shutdown and the
post-import warm-ups are never reached. -/
theorem threadImport_abc_failure_witness :
    (ThreadImport sampleAbcFailInputs 1).abcAttempted = true ∧
    (ThreadImport sampleAbcFailInputs 1).shutdownStarted = true ∧
    (ThreadImport sampleAbcFailInputs 1).reachedPostImport = false := by
  have h := threadImport_abc_failure sampleAbcFailInputs 1 rfl
    (fun _ => rfl) rfl rfl
  exact h

/-!
Reindex preparation events (`src/init.cpp:1967-1985`): the block-tree
store is (re)opened with `fWipe = fReset` (line 1968), then — when
`fReset` — `WriteReindexing(true)` marks the store as mid-reindex
(line 1981) and, in prune mode, unusable block/undo files are wiped
(lines 1982-1984).
-/

inductive ResetEvent where
  | wipedBlockTreeStore
  | wroteReindexingTrue
  | cleanedBlockFiles
deriving DecidableEq, BEq

/-- Modelled from the spec: the `CBlockTreeDB` constructor called at
`src/init.cpp:1968` with `fWipe = fReset` is declared outside this
excerpt; spec section 4.1 states that opening the block-tree store applies
the wipe ("this deletes and recreates on-disk structures") when a full
reindex is requested. This list records, in execution order, the
operations `src/init.cpp:1967-1985` performs on the block-tree store and
block files in one pass of the load loop. -/
def chainLoadResetEvents (fReset fPruneMode : Bool) : List ResetEvent :=
  (if fReset then [ResetEvent.wipedBlockTreeStore] else []) ++
  (if fReset then
      ResetEvent.wroteReindexingTrue ::
        (if fPruneMode then [ResetEvent.cleanedBlockFiles] else [])
    else [])

/-- C10 counterexample: in a reindex pass the on-disk reindexing marker is
NOT written before the block-tree store is wiped — the wiping reopen of
the store (position 0 of the event list) strictly precedes
`WriteReindexing(true)` (position 1). -/
theorem reindexMarker_not_written_before_wipe :
    ¬ List.indexOf ResetEvent.wroteReindexingTrue (chainLoadResetEvents true false) <
        List.indexOf ResetEvent.wipedBlockTreeStore (chainLoadResetEvents true false) := by
  decide

/-- C10 (amended): the on-disk reindexing marker is written true
immediately after the block-tree store is wiped and reopened for a reindex
(and before prune-mode block-file cleanup and before any file is
replayed), and it is cleared (with the in-memory reindex flag) only after
the reindex loop has replayed every contiguous block file; if shutdown is
requested between files, the pipeline returns with the marker and flag
still set and genesis initialization not yet re-attempted, so a subsequent
start resumes the reindex instead of treating the wiped store as
complete. -/
theorem reindexMarker_lifecycle (inp : ImportInputs) (fuel m k : Nat)
    (fPruneMode : Bool) (hre : inp.fReindex = true) :
    (chainLoadResetEvents true fPruneMode =
      ResetEvent.wipedBlockTreeStore :: ResetEvent.wroteReindexingTrue ::
        (if fPruneMode then [ResetEvent.cleanedBlockFiles] else [])) ∧
    ((∀ n, n < m → inp.fileExists n = true) → inp.fileExists m = false →
      (∀ n, n < m → inp.fileOpens n = true) →
      (∀ n, n < m → inp.shutdownAfterBlockFile n = false) → m < fuel →
      (ThreadImport inp fuel).reindexMarkerOnDisk = false ∧
      (ThreadImport inp fuel).fReindex = false ∧
      (ThreadImport inp fuel).replayedBlockFiles = List.range m) ∧
    ((∀ n, n ≤ k → inp.fileExists n = true) →
      (∀ n, n ≤ k → inp.fileOpens n = true) →
      (∀ n, n < k → inp.shutdownAfterBlockFile n = false) →
      inp.shutdownAfterBlockFile k = true → k < fuel →
      (ThreadImport inp fuel).reindexMarkerOnDisk = true ∧
      (ThreadImport inp fuel).fReindex = true ∧
      (ThreadImport inp fuel).genesisReattempted = false ∧
      (ThreadImport inp fuel).replayedBlockFiles = List.range (k + 1)) := by
  refine ⟨by cases fPruneMode <;> rfl, ?_, ?_⟩
  · intro hex hmiss hop hsd hfuel
    have h := threadImport_exhaust_aux inp fuel m hre hex hmiss hop hsd hfuel
    exact ⟨h.2.1, h.2.2.1, h.1⟩
  · intro hex hop hsd hstop hfuel
    have h := threadImport_shutdown_aux inp fuel k hre hex hop hsd hstop hfuel
    rw [h]
    simp [initialImportState, hre]

/-- Reindex inputs on which shutdown is requested after block file 1 (all
files exist and open). -/
def sampleShutdownInputs : ImportInputs where
  fReindex := true
  fileExists := fun _ => true
  fileOpens := fun _ => true
  shutdownAfterBlockFile := fun n => decide (n = 1)
  bootstrapPresent := false
  bootstrapOpens := false
  renameOk := true
  loadFiles := []
  shutdownAfterLoadFile := fun _ => false
  abcOk := true
  stopAfterImport := false

/-- Witness for C10 (amended): the reset-event order for a pruned reindex,
a completed reindex clearing the marker, and an interrupted reindex (after
file 1) leaving the marker and flag set with genesis untouched. -/
theorem reindexMarker_lifecycle_witness :
    chainLoadResetEvents true true =
      [ResetEvent.wipedBlockTreeStore, ResetEvent.wroteReindexingTrue,
        ResetEvent.cleanedBlockFiles] ∧
    (ThreadImport sampleReindexInputs 5).reindexMarkerOnDisk = false ∧
    (ThreadImport sampleShutdownInputs 5).reindexMarkerOnDisk = true ∧
    (ThreadImport sampleShutdownInputs 5).fReindex = true ∧
    (ThreadImport sampleShutdownInputs 5).genesisReattempted = false ∧
    (ThreadImport sampleShutdownInputs 5).replayedBlockFiles = [0, 1] := by
  have h1 := reindexMarker_lifecycle sampleReindexInputs 5 3 0 true rfl
  have h2 := reindexMarker_lifecycle sampleShutdownInputs 5 0 1 false rfl
  have hcomplete := h1.2.1 (fun n hn => by simpa [sampleReindexInputs] using hn)
    (by rfl) (fun _ _ => rfl) (fun _ _ => rfl) (by omega)
  have hstop := h2.2.2 (fun _ _ => rfl) (fun _ _ => rfl)
    (fun n hn => by simp [sampleShutdownInputs]; omega) (by rfl) (by omega)
  exact ⟨h1.1.trans (by decide), hcomplete.1, hstop.1, hstop.2.1, hstop.2.2.1,
    hstop.2.2.2.trans (by decide)⟩

end Springbok
